import Mathlib

/-!
Verification of the LDAP client protocol engine (Del and Modify operations).

The development shallowly embeds `src/ldap/modify.go` and the delete
operation file (`src/unnamed/part_000`, the `del` file of package `ldap`).
BER packets are a rooted tree; the ASN.1 helper library (`Encode`,
`NewString`, `NewInteger`, `AppendChild`, `Data.Write`) is embedded as pure
tree constructors.  The connection plumbing (`sendMessage`, the response
channel, `finishMessage`) is embedded by making each operation a function of
the delivered outcome; every `return` path of the Go code is one branch.
-/

namespace LdapCheck

/-- Value stored in a BER packet node: absent, a string, an integer, or a
boolean. -/
inductive PacketValue where
  | nullV : PacketValue
  | strV (s : String) : PacketValue
  | intV (n : Nat) : PacketValue
  | boolV (b : Bool) : PacketValue
deriving DecidableEq, Repr

/-- A BER packet: class, primitive/constructed encoding bit, tag number,
value, description, raw data buffer, and ordered children (the tree of
`asn1.Packet` / `asno.Packet`). -/
inductive Packet where
  | node (pClass : Nat) (pType : Nat) (tag : Nat) (value : PacketValue)
      (desc : String) (data : String) (children : List Packet) : Packet

/-- Class of a packet node. -/
def Packet.pClass : Packet → Nat
  | .node c _ _ _ _ _ _ => c

/-- Encoding bit (primitive or constructed) of a packet node. -/
def Packet.pType : Packet → Nat
  | .node _ t _ _ _ _ _ => t

/-- Tag number of a packet node. -/
def Packet.tag : Packet → Nat
  | .node _ _ g _ _ _ _ => g

/-- Stored value of a packet node. -/
def Packet.value : Packet → PacketValue
  | .node _ _ _ v _ _ _ => v

/-- Description of a packet node. -/
def Packet.desc : Packet → String
  | .node _ _ _ _ d _ _ => d

/-- Raw data buffer of a packet node. -/
def Packet.data : Packet → String
  | .node _ _ _ _ _ d _ => d

/-- Children of a packet node. -/
def Packet.children : Packet → List Packet
  | .node _ _ _ _ _ _ cs => cs

/-- BER class constants of the ASN.1 library. -/
def ClassUniversal : Nat := 0
/-- Application class (0x40). -/
def ClassApplication : Nat := 64
/-- Context-specific class (0x80). -/
def ClassContext : Nat := 128

/-- Primitive encoding bit. -/
def TypePrimitive : Nat := 0
/-- Constructed encoding bit (0x20). -/
def TypeConstructed : Nat := 32

/-- Universal tag INTEGER. -/
def TagInteger : Nat := 2
/-- Universal tag OCTET STRING. -/
def TagOctetString : Nat := 4
/-- Universal tag ENUMERATED. -/
def TagEnumerated : Nat := 10
/-- Universal tag SEQUENCE. -/
def TagSequence : Nat := 16
/-- Universal tag SET. -/
def TagSet : Nat := 17

/-- Modelled from the spec: the operation application tags (spec section 6,
"Delete=10/11 request/response, Modify=6/7"); the constants are declared in
repository code outside `src/`. -/
def ApplicationModifyRequest : Nat := 6
/-- Modify response application tag (7). -/
def ApplicationModifyResponse : Nat := 7
/-- Del request application tag (10). -/
def ApplicationDelRequest : Nat := 10
/-- Del response application tag (11). -/
def ApplicationDelResponse : Nat := 11

/-- Change operation choice `AddAttribute = 0`. -/
def AddAttribute : Nat := 0
/-- Change operation choice `DeleteAttribute = 1`. -/
def DeleteAttribute : Nat := 1
/-- Change operation choice `ReplaceAttribute = 2`. -/
def ReplaceAttribute : Nat := 2

/-- Embeds `asn1.Encode` / `asno.Encode`: a fresh packet with the given
header and value, empty data buffer and no children. -/
def asnEncode (pClass pType tag : Nat) (value : PacketValue)
    (desc : String) : Packet :=
  Packet.node pClass pType tag value desc "" []

/-- Embeds `asn1.NewString`: a fresh packet whose value and data buffer both
hold the string. -/
def newString (pClass pType tag : Nat) (s : String) (desc : String) : Packet :=
  Packet.node pClass pType tag (PacketValue.strV s) desc s []

/-- Embeds `asn1.NewInteger`: a fresh packet holding the integer value. -/
def newInteger (pClass pType tag : Nat) (n : Nat) (desc : String) : Packet :=
  Packet.node pClass pType tag (PacketValue.intV n) desc "" []

/-- Embeds `Packet.AppendChild`: appends a child at the end of the parent's
child list. -/
def appendChild (p c : Packet) : Packet :=
  match p with
  | .node cl ty tg v d dt cs => Packet.node cl ty tg v d dt (cs ++ [c])

/-- Embeds `Packet.Data.Write`: appends bytes to the node's data buffer. -/
def dataWrite (p : Packet) (s : String) : Packet :=
  match p with
  | .node cl ty tg v d dt cs => Packet.node cl ty tg v d (dt ++ s) cs

/-- Control as defined in the spec's data model: object identifier,
criticality flag, opaque value. -/
structure Control where
  ControlType : String
  Criticality : Bool
  ControlValue : String

/-- Modelled from the spec: `encodeControls` is repository code outside
`src/`; per spec section 6 controls are an optional trailing `[0]`-tagged
SEQUENCE of `{controlType OID, criticality BOOLEAN, controlValue OCTET
STRING}`. -/
def encodeControl (c : Control) : Packet :=
  let p := asnEncode ClassUniversal TypeConstructed TagSequence
    PacketValue.nullV "Control"
  let p := appendChild p (newString ClassUniversal TypePrimitive
    TagOctetString c.ControlType "Control Type")
  let p := appendChild p (Packet.node ClassUniversal TypePrimitive 1
    (PacketValue.boolV c.Criticality) "Criticality" "" [])
  appendChild p (newString ClassUniversal TypePrimitive TagOctetString
    c.ControlValue "Control Value")

/-- Modelled from the spec: the controls element is a `[0]`-tagged sequence
holding one encoded control per list entry (spec section 6). -/
def encodeControls (cs : List Control) : Packet :=
  List.foldl (fun acc c => appendChild acc (encodeControl c))
    (asnEncode ClassContext TypeConstructed 0 PacketValue.nullV "Controls") cs

/-- DelRequest of the source: DN plus optional controls.  The Go field
`Controls []Control` distinguishes a nil slice from an empty one; `none`
embeds nil, `some cs` a non-nil slice. -/
structure DelRequest where
  DN : String
  Controls : Option (List Control)

/-- Embeds `DelRequest.encode`: an application-class primitive packet tagged
`ApplicationDelRequest` carrying the DN, whose data buffer is additionally
written with the DN bytes. -/
def DelRequest.encode (d : DelRequest) : Packet :=
  let request := asnEncode ClassApplication TypePrimitive ApplicationDelRequest
    (PacketValue.strV d.DN) "Del Request"
  dataWrite request d.DN

/-- PartialAttribute of the source: attribute type and values. -/
structure PartialAttribute where
  Typ : String
  Vals : List String

/-- Embeds `PartialAttribute.encode`: a universal SEQUENCE of the type
octet string followed by a SET of the value octet strings. -/
def PartialAttribute.encode (p : PartialAttribute) : Packet :=
  let seq := asnEncode ClassUniversal TypeConstructed TagSequence
    PacketValue.nullV "PartialAttribute"
  let seq := appendChild seq (newString ClassUniversal TypePrimitive
    TagOctetString p.Typ "Type")
  let set := asnEncode ClassUniversal TypeConstructed TagSet
    PacketValue.nullV "AttributeValue"
  let set := List.foldl (fun s value => appendChild s (newString ClassUniversal
    TypePrimitive TagOctetString value "Vals")) set p.Vals
  appendChild seq set

/-- ModifyRequest of the source: DN plus the three attribute lists. -/
structure ModifyRequest where
  DN : String
  AddAttributes : List PartialAttribute
  DeleteAttributes : List PartialAttribute
  ReplaceAttributes : List PartialAttribute

/-- Loop body shared by the three change loops of `ModifyRequest.encode`:
a SEQUENCE of the operation enumerated and the encoded attribute. -/
def modifyChange (op : Nat) (attr : PartialAttribute) : Packet :=
  let change := asnEncode ClassUniversal TypeConstructed TagSequence
    PacketValue.nullV "Change"
  let change := appendChild change (newInteger ClassUniversal TypePrimitive
    TagEnumerated op "Operation")
  appendChild change attr.encode

/-- Embeds `ModifyRequest.encode`: an application packet tagged
`ApplicationModifyRequest` whose first child is the DN octet string and
second child the changes SEQUENCE, filled by the Add, Delete, Replace loops
in that order. -/
def ModifyRequest.encode (m : ModifyRequest) : Packet :=
  let request := asnEncode ClassApplication TypeConstructed
    ApplicationModifyRequest PacketValue.nullV "Modify Request"
  let request := appendChild request (newString ClassUniversal TypePrimitive
    TagOctetString m.DN "DN")
  let changes := asnEncode ClassUniversal TypeConstructed TagSequence
    PacketValue.nullV "Changes"
  let changes := List.foldl (fun cs attr =>
    appendChild cs (modifyChange AddAttribute attr)) changes
    m.AddAttributes
  let changes := List.foldl (fun cs attr =>
    appendChild cs (modifyChange DeleteAttribute attr)) changes
    m.DeleteAttributes
  let changes := List.foldl (fun cs attr =>
    appendChild cs (modifyChange ReplaceAttribute attr)) changes
    m.ReplaceAttributes
  appendChild request changes

/-- Modelled from the spec: the `ErrorNetwork` result-code constant of the
error mapper lives in repository code outside `src/`; any fixed nonzero
local code works, the conventional value is 200. -/
def ErrorNetwork : Nat := 200

/-- Error returned by an operation; `ldapErr` embeds `NewError(code, err)`
carrying a result code and message, the other constructors embed the
errors forwarded unchanged from `sendMessage`, `ReadPacket` and
`addLDAPDescriptions`. -/
inductive OpError where
  | sendErr : OpError
  | readErr : OpError
  | descErr : OpError
  | ldapErr (code : Nat) (msg : String) : OpError
deriving DecidableEq, Repr

/-- Outcome of an operation: `ok` embeds `return nil`, `err` an error
return, `panic` a runtime fault (index out of range). -/
inductive OpOutcome where
  | ok : OpOutcome
  | err (e : OpError) : OpOutcome
  | panic : OpOutcome
deriving DecidableEq, Repr

/-- Modelled from the spec: `getLDAPResultCode` is repository code outside
`src/`; per spec section 4.4 the result decoder takes the response packet
whose second child is the operation response and extracts the result code
(first grandchild, integer) and the diagnostic message (third grandchild);
structurally impossible extraction yields a local network-class code. -/
def getLDAPResultCode (packet : Packet) : Nat × String :=
  match packet.children[1]? with
  | some response =>
      match response.children[0]?, response.children[2]? with
      | some codeChild, some diagChild =>
          match codeChild.value, diagChild.value with
          | PacketValue.intV code, PacketValue.strV diag => (code, diag)
          | _, _ => (ErrorNetwork, "Invalid packet format")
      | _, _ => (ErrorNetwork, "Invalid packet format")
  | none => (ErrorNetwork, "Invalid packet format")

/-- Tail of `Conn.Del` / `Conn.Modify` after a response packet is decoded:
`packet.Children[1]` is read with no bounds check (a missing child is a
runtime fault, embedded as `panic`); on the expected tag the result code
decides between `nil` and `NewError`; on any other tag the mismatch is
logged and the code falls through to `return nil`.  The second component
records whether the unexpected-response log line was emitted. -/
def processResponse (expectedTag : Nat) (packet : Packet) : OpOutcome × Bool :=
  match packet.children[1]? with
  | none => (OpOutcome.panic, false)
  | some child =>
      if child.tag = expectedTag then
        let rc := getLDAPResultCode packet
        if rc.1 ≠ 0 then (OpOutcome.err (OpError.ldapErr rc.1 rc.2), false)
        else (OpOutcome.ok, false)
      else (OpOutcome.ok, true)

/-- What the response channel of the message context delivers: closed
channel, a `ReadPacket` failure, or a decoded response packet. -/
inductive Delivered where
  | chanClosed : Delivered
  | readFail : Delivered
  | response (p : Packet) : Delivered

/-- Outcome of `sendMessage`: failure, or success followed by a delivery. -/
inductive SendOutcome where
  | sendFail : SendOutcome
  | sent (d : Delivered) : SendOutcome

/-- Result record of one operation run: the returned outcome, whether
`sendMessage` succeeded (the message context was registered), whether
`finishMessage` ran (the deferred call fires on every return after a
successful send, panics included), and whether the unexpected-response log
line was emitted. -/
structure OpResult where
  outcome : OpOutcome
  registered : Bool
  finishCalled : Bool
  loggedUnexpected : Bool
deriving DecidableEq, Repr

/-- Wait-and-decode tail shared verbatim by `Conn.Del` and `Conn.Modify`
(they differ only in the expected response tag): each branch is one
`return` path of the Go code — `sendMessage` failure (before the `defer`),
closed response channel, `ReadPacket` failure, `addLDAPDescriptions`
failure under `l.Debug`, and the response-tag dispatch. -/
def awaitResponse (expectedTag : Nat) (debug descFails : Bool)
    (send : SendOutcome) : OpResult :=
  match send with
  | SendOutcome.sendFail =>
      ⟨OpOutcome.err OpError.sendErr, false, false, false⟩
  | SendOutcome.sent d =>
      match d with
      | Delivered.chanClosed =>
          ⟨OpOutcome.err (OpError.ldapErr ErrorNetwork
            "ldap: response channel closed"), true, true, false⟩
      | Delivered.readFail =>
          ⟨OpOutcome.err OpError.readErr, true, true, false⟩
      | Delivered.response p =>
          if debug && descFails then
            ⟨OpOutcome.err OpError.descErr, true, true, false⟩
          else
            let r := processResponse expectedTag p
            ⟨r.1, true, true, r.2⟩

/-- Embeds the envelope construction of `Conn.Del`: a universal SEQUENCE of
the message ID integer and the encoded request, with the encoded controls
appended only when the `Controls` slice is non-nil. -/
def delEnvelope (msgID : Nat) (delRequest : DelRequest) : Packet :=
  let packet := asnEncode ClassUniversal TypeConstructed TagSequence
    PacketValue.nullV "LDAP Request"
  let packet := appendChild packet (newInteger ClassUniversal TypePrimitive
    TagInteger msgID "MessageID")
  let packet := appendChild packet delRequest.encode
  match delRequest.Controls with
  | none => packet
  | some cs => appendChild packet (encodeControls cs)

/-- Embeds the envelope construction of `Conn.Modify`: a universal SEQUENCE
of the message ID integer and the encoded modify request; no controls are
ever appended. -/
def modifyEnvelope (msgID : Nat) (modifyRequest : ModifyRequest) : Packet :=
  let packet := asnEncode ClassUniversal TypeConstructed TagSequence
    PacketValue.nullV "LDAP Request"
  let packet := appendChild packet (newInteger ClassUniversal TypePrimitive
    TagInteger msgID "MessageID")
  appendChild packet modifyRequest.encode

/-- Embeds `Conn.Del`: builds the envelope, then sends and decodes with
expected response tag `ApplicationDelResponse`.  `msgID` stands for
`l.nextMessageID()`, `debug` for `l.Debug`, `descFails` for whether
`addLDAPDescriptions` would fail, `send` for the transport interaction. -/
def connDel (msgID : Nat) (delRequest : DelRequest) (debug descFails : Bool)
    (send : SendOutcome) : Packet × OpResult :=
  (delEnvelope msgID delRequest,
   awaitResponse ApplicationDelResponse debug descFails send)

/-- Embeds `Conn.Modify`: builds the envelope, then sends and decodes with
expected response tag `ApplicationModifyResponse`. -/
def connModify (msgID : Nat) (modifyRequest : ModifyRequest)
    (debug descFails : Bool) (send : SendOutcome) : Packet × OpResult :=
  (modifyEnvelope msgID modifyRequest,
   awaitResponse ApplicationModifyResponse debug descFails send)

/-- Rebuilding a packet node from its projections gives back the packet. -/
theorem Packet.eta (p : Packet) :
    Packet.node p.pClass p.pType p.tag p.value p.desc p.data p.children = p := by
  cases p
  rfl

/-- Folding `appendChild` of a per-element packet over a list appends the
mapped list to the accumulator's children and changes nothing else. -/
theorem foldl_appendChild {α : Type} (f : α → Packet) :
    ∀ (l : List α) (p : Packet),
      List.foldl (fun q a => appendChild q (f a)) p l
        = Packet.node p.pClass p.pType p.tag p.value p.desc p.data
            (p.children ++ List.map f l) := by
  intro l
  induction l with
  | nil =>
      intro p
      simpa using (Packet.eta p).symm
  | cons a t ih =>
      intro p
      rw [List.foldl_cons, ih]
      cases p
      simp [appendChild, Packet.pClass, Packet.pType, Packet.tag, Packet.value,
        Packet.desc, Packet.data, Packet.children]

/-- Normal form of `ModifyRequest.encode`: the three change loops append
the mapped Add, Delete and Replace lists, in that order, to the changes
SEQUENCE. -/
theorem modify_encode_eq (m : ModifyRequest) :
    ModifyRequest.encode m
      = Packet.node ClassApplication TypeConstructed ApplicationModifyRequest
          PacketValue.nullV "Modify Request" ""
          [newString ClassUniversal TypePrimitive TagOctetString m.DN "DN",
           Packet.node ClassUniversal TypeConstructed TagSequence
             PacketValue.nullV "Changes" ""
             (List.map (modifyChange AddAttribute) m.AddAttributes
               ++ List.map (modifyChange DeleteAttribute) m.DeleteAttributes
               ++ List.map (modifyChange ReplaceAttribute)
                   m.ReplaceAttributes)] := by
  simp only [ModifyRequest.encode]
  rw [foldl_appendChild (modifyChange AddAttribute),
    foldl_appendChild (modifyChange DeleteAttribute),
    foldl_appendChild (modifyChange ReplaceAttribute)]
  simp [asnEncode, appendChild, Packet.pClass, Packet.pType, Packet.tag,
    Packet.value, Packet.desc, Packet.data, Packet.children]

/-- C5: `ModifyRequest.encode` emits the application-tagged constructed
packet whose first child is the DN octet string and second child the
changes SEQUENCE listing the Add changes (operation 0), then the Delete
changes (operation 1), then the Replace changes (operation 2), each list in
caller order; in particular `Modify(dn, add=[{"mail",["a@x.com"]}])` yields
exactly one change with operation 0 and attribute type `mail` with one
value. -/
theorem modify_encode_grammar :
    (∀ m : ModifyRequest,
      ModifyRequest.encode m
        = Packet.node ClassApplication TypeConstructed ApplicationModifyRequest
            PacketValue.nullV "Modify Request" ""
            [newString ClassUniversal TypePrimitive TagOctetString m.DN "DN",
             Packet.node ClassUniversal TypeConstructed TagSequence
               PacketValue.nullV "Changes" ""
               (List.map (modifyChange AddAttribute) m.AddAttributes
                 ++ List.map (modifyChange DeleteAttribute) m.DeleteAttributes
                 ++ List.map (modifyChange ReplaceAttribute)
                     m.ReplaceAttributes)])
    ∧ (ModifyRequest.encode ⟨"dn", [⟨"mail", ["a@x.com"]⟩], [], []⟩).children
        = [newString ClassUniversal TypePrimitive TagOctetString "dn" "DN",
           Packet.node ClassUniversal TypeConstructed TagSequence
             PacketValue.nullV "Changes" ""
             [Packet.node ClassUniversal TypeConstructed TagSequence
               PacketValue.nullV "Change" ""
               [newInteger ClassUniversal TypePrimitive TagEnumerated 0
                 "Operation",
                Packet.node ClassUniversal TypeConstructed TagSequence
                  PacketValue.nullV "PartialAttribute" ""
                  [newString ClassUniversal TypePrimitive TagOctetString
                    "mail" "Type",
                   Packet.node ClassUniversal TypeConstructed TagSet
                     PacketValue.nullV "AttributeValue" ""
                     [newString ClassUniversal TypePrimitive TagOctetString
                       "a@x.com" "Vals"]]]]] := by
  exact ⟨modify_encode_eq, rfl⟩

/-- C6: the request encoders are pure functions of the typed request — two
invocations on equal requests produce structurally equal packets, and, the
embedding being a function from request to packet only, no connection state
is read or written. -/
theorem encoders_deterministic :
    (∀ d₁ d₂ : DelRequest, d₁ = d₂ →
        DelRequest.encode d₁ = DelRequest.encode d₂)
    ∧ (∀ m₁ m₂ : ModifyRequest, m₁ = m₂ →
        ModifyRequest.encode m₁ = ModifyRequest.encode m₂)
    ∧ (∀ p₁ p₂ : PartialAttribute, p₁ = p₂ →
        PartialAttribute.encode p₁ = PartialAttribute.encode p₂) := by
  refine ⟨fun d₁ d₂ h => ?_, fun m₁ m₂ h => ?_, fun p₁ p₂ h => ?_⟩ <;>
    rw [h]

/-- Witness for C6 at concrete requests. -/
theorem encoders_deterministic_app :
    DelRequest.encode ⟨"uid=test,dc=example,dc=com", none⟩
        = DelRequest.encode ⟨"uid=test,dc=example,dc=com", none⟩
      ∧ ModifyRequest.encode ⟨"dn", [⟨"mail", ["a@x.com"]⟩], [], []⟩
        = ModifyRequest.encode ⟨"dn", [⟨"mail", ["a@x.com"]⟩], [], []⟩ :=
  ⟨encoders_deterministic.1 ⟨"uid=test,dc=example,dc=com", none⟩
      ⟨"uid=test,dc=example,dc=com", none⟩ rfl,
   encoders_deterministic.2.1 ⟨"dn", [⟨"mail", ["a@x.com"]⟩], [], []⟩
      ⟨"dn", [⟨"mail", ["a@x.com"]⟩], [], []⟩ rfl⟩

/-- C9: in `Conn.Del` and `Conn.Modify`, once `sendMessage` succeeds the
deferred `finishMessage` runs on every return path (closed channel, read
failure, description failure, tag dispatch, even the index fault), so a
registered message context is always released; when `sendMessage` fails
nothing was registered and `finishMessage` does not run. -/
theorem finish_message_on_every_path (msgID : Nat) (req : DelRequest)
    (m : ModifyRequest) (debug descFails : Bool) :
    (∀ d : Delivered,
        (connDel msgID req debug descFails (SendOutcome.sent d)).2.finishCalled
            = true
          ∧ (connModify msgID m debug descFails
              (SendOutcome.sent d)).2.finishCalled = true)
      ∧ (connDel msgID req debug descFails SendOutcome.sendFail).2.registered
          = false
      ∧ (connDel msgID req debug descFails
          SendOutcome.sendFail).2.finishCalled = false := by
  refine ⟨fun d => ?_, rfl, rfl⟩
  cases d with
  | chanClosed => exact ⟨rfl, rfl⟩
  | readFail => exact ⟨rfl, rfl⟩
  | response p =>
      constructor <;>
        · simp only [connDel, connModify, awaitResponse]
          split <;> rfl

/-- C10: the envelope built by `Conn.Modify` always has exactly two
children — the message ID integer and the encoded modify operation — so no
controls element is ever attached; the `ModifyRequest` type carries no
controls to attach. -/
theorem modify_envelope_no_controls (msgID : Nat) (m : ModifyRequest)
    (debug descFails : Bool) (send : SendOutcome) :
    (connModify msgID m debug descFails send).1.children
        = [newInteger ClassUniversal TypePrimitive TagInteger msgID
            "MessageID", ModifyRequest.encode m]
      ∧ (connModify msgID m debug descFails send).1.children.length = 2 := by
  constructor
  · simp [connModify, modifyEnvelope, asnEncode, appendChild, Packet.children]
  · simp [connModify, modifyEnvelope, asnEncode, appendChild, Packet.children]

/-- C7: the envelope built by `Conn.Del` is a universal SEQUENCE whose
first child is the message ID integer and second child the encoded delete
operation; when the request's `Controls` slice is non-nil the encoded
controls element follows as trailing third child, and when it is nil no
controls element is present. -/
theorem del_envelope_structure (msgID : Nat) (req : DelRequest)
    (debug descFails : Bool) (send : SendOutcome) :
    ((connDel msgID req debug descFails send).1.pClass = ClassUniversal
        ∧ (connDel msgID req debug descFails send).1.pType = TypeConstructed
        ∧ (connDel msgID req debug descFails send).1.tag = TagSequence)
      ∧ (req.Controls = none →
          (connDel msgID req debug descFails send).1.children
            = [newInteger ClassUniversal TypePrimitive TagInteger msgID
                "MessageID", DelRequest.encode req])
      ∧ (∀ cs : List Control, req.Controls = some cs →
          (connDel msgID req debug descFails send).1.children
            = [newInteger ClassUniversal TypePrimitive TagInteger msgID
                "MessageID", DelRequest.encode req, encodeControls cs]) := by
  refine ⟨⟨?_, ?_, ?_⟩, fun h => ?_, fun cs h => ?_⟩ <;>
    · simp only [connDel, delEnvelope]
      first
        | (rw [h]; simp [asnEncode, appendChild, Packet.children])
        | (cases hc : req.Controls <;>
            simp [asnEncode, appendChild, Packet.pClass, Packet.pType,
              Packet.tag])

/-- Witness for C7 at a concrete message ID and concrete requests, one with
nil controls and one with a single control attached. -/
theorem del_envelope_structure_app :
    (connDel 1 ⟨"uid=test,dc=example,dc=com", none⟩ false false
          SendOutcome.sendFail).1.children
        = [newInteger ClassUniversal TypePrimitive TagInteger 1 "MessageID",
           DelRequest.encode ⟨"uid=test,dc=example,dc=com", none⟩]
      ∧ (connDel 2 ⟨"uid=test,dc=example,dc=com",
            some [⟨"1.2.840.113556.1.4.805", true, ""⟩]⟩ false false
          SendOutcome.sendFail).1.children
        = [newInteger ClassUniversal TypePrimitive TagInteger 2 "MessageID",
           DelRequest.encode ⟨"uid=test,dc=example,dc=com",
             some [⟨"1.2.840.113556.1.4.805", true, ""⟩]⟩,
           encodeControls [⟨"1.2.840.113556.1.4.805", true, ""⟩]] :=
  ⟨(del_envelope_structure 1 ⟨"uid=test,dc=example,dc=com", none⟩ false false
      SendOutcome.sendFail).2.1 rfl,
   (del_envelope_structure 2 ⟨"uid=test,dc=example,dc=com",
        some [⟨"1.2.840.113556.1.4.805", true, ""⟩]⟩ false false
      SendOutcome.sendFail).2.2 [⟨"1.2.840.113556.1.4.805", true, ""⟩] rfl⟩

/-- On a response whose second child carries the expected tag and whose
grandchildren are the result-code integer, the matched DN and the
diagnostic string, the response tail reduces the operation to the
result-code test. -/
theorem processResponse_result (expectedTag : Nat)
    (p resp codeChild dnChild diagChild : Packet) (c : Nat) (d : String)
    (hchild : p.children[1]? = some resp)
    (hgrand : resp.children = [codeChild, dnChild, diagChild])
    (hcode : codeChild.value = PacketValue.intV c)
    (hdiag : diagChild.value = PacketValue.strV d)
    (ht : resp.tag = expectedTag) :
    processResponse expectedTag p
      = (if c = 0 then OpOutcome.ok
         else OpOutcome.err (OpError.ldapErr c d), false) := by
  rcases Nat.eq_zero_or_pos c with hc | hc
  · simp [processResponse, getLDAPResultCode, hchild, hgrand, hcode, hdiag,
      ht, hc]
  · have hne : c ≠ 0 := Nat.pos_iff_ne_zero.mp hc
    simp [processResponse, getLDAPResultCode, hchild, hgrand, hcode, hdiag,
      ht, hne]

/-- C1: for Del and Modify, when the delivered response carries the
operation's expected response tag, a decoded result code of 0 makes the
operation return success, and any nonzero code C makes it return the
`NewError` result error carrying C and the diagnostic text extracted from
the response packet. -/
theorem del_modify_result_code_semantics (msgID : Nat) (req : DelRequest)
    (m : ModifyRequest) (p resp codeChild dnChild diagChild : Packet)
    (c : Nat) (d : String)
    (hchild : p.children[1]? = some resp)
    (hgrand : resp.children = [codeChild, dnChild, diagChild])
    (hcode : codeChild.value = PacketValue.intV c)
    (hdiag : diagChild.value = PacketValue.strV d) :
    (resp.tag = ApplicationDelResponse →
        (connDel msgID req false false
            (SendOutcome.sent (Delivered.response p))).2.outcome
          = if c = 0 then OpOutcome.ok
            else OpOutcome.err (OpError.ldapErr c d))
      ∧ (resp.tag = ApplicationModifyResponse →
        (connModify msgID m false false
            (SendOutcome.sent (Delivered.response p))).2.outcome
          = if c = 0 then OpOutcome.ok
            else OpOutcome.err (OpError.ldapErr c d)) := by
  constructor <;> intro ht <;>
    · have hp := processResponse_result _ p resp codeChild dnChild diagChild
        c d hchild hgrand hcode hdiag ht
      simp [connDel, connModify, awaitResponse, hp]

/-- Witness for C1, the spec's concrete scenario: the stub replies with
result code 32 and diagnostic "no such object", and the Del returns the
result error {32, "no such object"}; with result code 0 it returns
success. -/
theorem del_modify_result_code_semantics_app :
    (connDel 1 ⟨"uid=test,dc=example,dc=com", none⟩ false false
        (SendOutcome.sent (Delivered.response (Packet.node ClassUniversal
          TypeConstructed TagSequence PacketValue.nullV "" ""
          [newInteger ClassUniversal TypePrimitive TagInteger 1 "MessageID",
           Packet.node ClassApplication TypeConstructed ApplicationDelResponse
             PacketValue.nullV "" ""
             [newInteger ClassUniversal TypePrimitive TagEnumerated 32
               "resultCode",
              newString ClassUniversal TypePrimitive TagOctetString ""
                "matchedDN",
              newString ClassUniversal TypePrimitive TagOctetString
                "no such object" "errorMessage"]])))).2.outcome
      = OpOutcome.err (OpError.ldapErr 32 "no such object") := by
  have h := del_modify_result_code_semantics 1
    ⟨"uid=test,dc=example,dc=com", none⟩ ⟨"", [], [], []⟩
    (Packet.node ClassUniversal TypeConstructed TagSequence PacketValue.nullV
      "" ""
      [newInteger ClassUniversal TypePrimitive TagInteger 1 "MessageID",
       Packet.node ClassApplication TypeConstructed ApplicationDelResponse
         PacketValue.nullV "" ""
         [newInteger ClassUniversal TypePrimitive TagEnumerated 32
           "resultCode",
          newString ClassUniversal TypePrimitive TagOctetString ""
            "matchedDN",
          newString ClassUniversal TypePrimitive TagOctetString
            "no such object" "errorMessage"]])
    (Packet.node ClassApplication TypeConstructed ApplicationDelResponse
      PacketValue.nullV "" ""
      [newInteger ClassUniversal TypePrimitive TagEnumerated 32 "resultCode",
       newString ClassUniversal TypePrimitive TagOctetString "" "matchedDN",
       newString ClassUniversal TypePrimitive TagOctetString "no such object"
         "errorMessage"])
    (newInteger ClassUniversal TypePrimitive TagEnumerated 32 "resultCode")
    (newString ClassUniversal TypePrimitive TagOctetString "" "matchedDN")
    (newString ClassUniversal TypePrimitive TagOctetString "no such object"
      "errorMessage")
    32 "no such object" rfl rfl rfl rfl
  simpa using h.1 rfl

/-- A response packet whose second child carries tag 1 (not a Del or
Modify response tag) yet holds a perfectly extractable result: code 32,
diagnostic "no such object". -/
def mismatchResponsePacket : Packet :=
  Packet.node ClassUniversal TypeConstructed TagSequence PacketValue.nullV
    "" ""
    [newInteger ClassUniversal TypePrimitive TagInteger 1 "MessageID",
     Packet.node ClassApplication TypeConstructed 1 PacketValue.nullV "" ""
       [newInteger ClassUniversal TypePrimitive TagEnumerated 32 "resultCode",
        newString ClassUniversal TypePrimitive TagOctetString "" "matchedDN",
        newString ClassUniversal TypePrimitive TagOctetString
          "no such object" "errorMessage"]]

/-- Counterexample for C2: on a tag mismatch the operations do NOT attempt
to extract a result and do NOT report a generic failure — even though the
result {32, "no such object"} is structurally extractable from the packet
(first conjunct), both Del and Modify log the mismatch and return plain
success. -/
theorem unexpected_response_ignores_result :
    getLDAPResultCode mismatchResponsePacket = (32, "no such object")
      ∧ (connDel 1 ⟨"uid=test,dc=example,dc=com", none⟩ false false
          (SendOutcome.sent
            (Delivered.response mismatchResponsePacket))).2.outcome
        = OpOutcome.ok
      ∧ (connDel 1 ⟨"uid=test,dc=example,dc=com", none⟩ false false
          (SendOutcome.sent
            (Delivered.response mismatchResponsePacket))).2.loggedUnexpected
        = true
      ∧ (connModify 1 ⟨"dn", [], [], []⟩ false false
          (SendOutcome.sent
            (Delivered.response mismatchResponsePacket))).2.outcome
        = OpOutcome.ok :=
  ⟨rfl, rfl, rfl, rfl⟩

/-- C2 as amended: a delivered response whose second child's tag differs
from the operation's expected response tag is logged and is not fatal; the
operation ignores the response body entirely and returns success (nil),
with no result extraction and no generic failure. -/
theorem unexpected_response_logged_returns_nil (msgID : Nat)
    (req : DelRequest) (m : ModifyRequest) (p resp : Packet)
    (hchild : p.children[1]? = some resp) :
    (resp.tag ≠ ApplicationDelResponse →
        (connDel msgID req false false
            (SendOutcome.sent (Delivered.response p))).2.outcome = OpOutcome.ok
          ∧ (connDel msgID req false false
              (SendOutcome.sent
                (Delivered.response p))).2.loggedUnexpected = true)
      ∧ (resp.tag ≠ ApplicationModifyResponse →
        (connModify msgID m false false
            (SendOutcome.sent (Delivered.response p))).2.outcome = OpOutcome.ok
          ∧ (connModify msgID m false false
              (SendOutcome.sent
                (Delivered.response p))).2.loggedUnexpected = true) := by
  constructor <;> intro ht <;>
    constructor <;>
      simp [connDel, connModify, awaitResponse, processResponse, hchild, ht]

/-- Witness for the amended C2 at the concrete mismatching packet. -/
theorem unexpected_response_logged_returns_nil_app :
    (connDel 7 ⟨"uid=w,dc=example,dc=com", none⟩ false false
        (SendOutcome.sent
          (Delivered.response mismatchResponsePacket))).2.outcome
      = OpOutcome.ok :=
  ((unexpected_response_logged_returns_nil 7 ⟨"uid=w,dc=example,dc=com", none⟩
      ⟨"dn", [], [], []⟩ mismatchResponsePacket
      (Packet.node ClassApplication TypeConstructed 1 PacketValue.nullV "" ""
        [newInteger ClassUniversal TypePrimitive TagEnumerated 32
          "resultCode",
         newString ClassUniversal TypePrimitive TagOctetString "" "matchedDN",
         newString ClassUniversal TypePrimitive TagOctetString
           "no such object" "errorMessage"]) rfl).1 (by decide)).1

/-- Counterexample for C4: the error carried on a closed response channel
is the string "ldap: response channel closed", which is not the claim's
literal "response channel closed". -/
theorem channel_closed_message_prefixed :
    (connDel 1 ⟨"uid=test,dc=example,dc=com", none⟩ false false
        (SendOutcome.sent Delivered.chanClosed)).2.outcome
      = OpOutcome.err (OpError.ldapErr ErrorNetwork
          "ldap: response channel closed")
      ∧ "ldap: response channel closed" ≠ "response channel closed" :=
  ⟨rfl, by decide⟩

/-- C4 as amended: when the response channel closes after the request was
sent and before a reply, Del and Modify return the network-class error
(`NewError(ErrorNetwork, ...)`) whose message is "ldap: response channel
closed". -/
theorem channel_closed_network_error (msgID : Nat) (req : DelRequest)
    (m : ModifyRequest) (debug descFails : Bool) :
    (connDel msgID req debug descFails
        (SendOutcome.sent Delivered.chanClosed)).2.outcome
      = OpOutcome.err (OpError.ldapErr ErrorNetwork
          "ldap: response channel closed")
      ∧ (connModify msgID m debug descFails
          (SendOutcome.sent Delivered.chanClosed)).2.outcome
        = OpOutcome.err (OpError.ldapErr ErrorNetwork
            "ldap: response channel closed") :=
  ⟨rfl, rfl⟩

/-- C8: both operations read `packet.Children[1]` with no bounds check, so
a successfully decoded response packet with fewer than two children makes
the operation fault at runtime (index out of range) instead of returning
any error value. -/
theorem response_missing_child_faults (msgID : Nat) (req : DelRequest)
    (m : ModifyRequest) (p : Packet) (h : p.children.length < 2) :
    (connDel msgID req false false
        (SendOutcome.sent (Delivered.response p))).2.outcome = OpOutcome.panic
      ∧ (connModify msgID m false false
          (SendOutcome.sent (Delivered.response p))).2.outcome
        = OpOutcome.panic := by
  have hn : p.children[1]? = none := by
    rw [List.getElem?_eq_none_iff]
    omega
  constructor <;>
    simp [connDel, connModify, awaitResponse, processResponse, hn]

/-- Witness for C8: a decoded response holding only the message ID child
faults in both operations. -/
theorem response_missing_child_faults_app :
    (connDel 1 ⟨"uid=test,dc=example,dc=com", none⟩ false false
        (SendOutcome.sent (Delivered.response
          (Packet.node ClassUniversal TypeConstructed TagSequence
            PacketValue.nullV "" ""
            [newInteger ClassUniversal TypePrimitive TagInteger 1
              "MessageID"])))).2.outcome = OpOutcome.panic :=
  (response_missing_child_faults 1 ⟨"uid=test,dc=example,dc=com", none⟩
    ⟨"dn", [], [], []⟩
    (Packet.node ClassUniversal TypeConstructed TagSequence PacketValue.nullV
      "" ""
      [newInteger ClassUniversal TypePrimitive TagInteger 1 "MessageID"])
    (by decide)).1

/-- Counterexample for C3: neither encoder rejects an empty DN — both build
their application-tagged packet with the empty DN embedded, so no
validation happens before the packet is built. -/
theorem encoders_accept_empty_dn :
    DelRequest.encode ⟨"", none⟩
        = Packet.node ClassApplication TypePrimitive ApplicationDelRequest
            (PacketValue.strV "") "Del Request" "" []
      ∧ ModifyRequest.encode ⟨"", [], [], []⟩
        = Packet.node ClassApplication TypeConstructed
            ApplicationModifyRequest PacketValue.nullV "Modify Request" ""
            [newString ClassUniversal TypePrimitive TagOctetString "" "DN",
             Packet.node ClassUniversal TypeConstructed TagSequence
               PacketValue.nullV "Changes" "" []] :=
  ⟨rfl, rfl⟩

/-- C3 as amended: the encoders perform no validation at all — every
`DelRequest` (empty DN included) encodes to the application-tagged
primitive packet carrying its DN, every `ModifyRequest` encodes without
any field check, and a Modify with no Add/Delete/Replace lists produces an
empty changes sequence. -/
theorem encoders_no_validation (req : DelRequest) (m : ModifyRequest) :
    DelRequest.encode req
        = Packet.node ClassApplication TypePrimitive ApplicationDelRequest
            (PacketValue.strV req.DN) "Del Request" req.DN []
      ∧ (m.AddAttributes = [] → m.DeleteAttributes = [] →
          m.ReplaceAttributes = [] →
          (ModifyRequest.encode m).children
            = [newString ClassUniversal TypePrimitive TagOctetString m.DN
                "DN",
               Packet.node ClassUniversal TypeConstructed TagSequence
                 PacketValue.nullV "Changes" "" []]) := by
  constructor
  · simp [DelRequest.encode, asnEncode, dataWrite]
  · intro h₁ h₂ h₃
    simp [modify_encode_eq m, h₁, h₂, h₃, Packet.children]

/-- Witness for the amended C3: a Modify with a non-empty DN and no
attribute lists encodes to the DN child plus an empty changes sequence. -/
theorem encoders_no_validation_app :
    (ModifyRequest.encode ⟨"uid=test,dc=example,dc=com", [], [], []⟩).children
      = [newString ClassUniversal TypePrimitive TagOctetString
          "uid=test,dc=example,dc=com" "DN",
         Packet.node ClassUniversal TypeConstructed TagSequence
           PacketValue.nullV "Changes" "" []] :=
  (encoders_no_validation ⟨"", none⟩
    ⟨"uid=test,dc=example,dc=com", [], [], []⟩).2 rfl rfl rfl

end LdapCheck
